import Mathlib

/-!
Verification of the Brave Search adapter
(`libs/agno/agno/tools/bravesearch.py`).

The adapter is embedded shallowly: the owned provider client
(`BraveSearch.search`) is modelled as a function from the call arguments
the adapter passes to an outcome (a successful response, the
provider-specific `BraveSearchAPIError`, or any other exception), and the
JSON strings the adapter returns are produced by an executable model of
Python's `json.dumps` (default separators, and the `indent=2` variant used
on the success path).
-/

namespace BraveTools

/-- JSON documents, as built by the adapter before serialization.
Numbers are integers: the adapter only ever serializes `len(...)`. -/
inductive Json where
  | str : String → Json
  | num : Int → Json
  | arr : List Json → Json
  | obj : List (String × Json) → Json

/-- Lower-case hexadecimal digit, as produced by Python's `\uXXXX` escapes. -/
def hexDigit (n : Nat) : Char :=
  if n < 10 then Char.ofNat (48 + n) else Char.ofNat (97 + (n - 10))

/-- Four lower-case hexadecimal digits. -/
def hex4 (n : Nat) : String :=
  String.mk [hexDigit (n / 4096 % 16), hexDigit (n / 256 % 16),
             hexDigit (n / 16 % 16), hexDigit (n % 16)]

/-- Escape of a single character inside a JSON string literal, exactly as
Python's `json.dumps` with its default `ensure_ascii=True` performs it. -/
def escChar (c : Char) : String :=
  if c = '"' then "\\\""
  else if c = '\\' then "\\\\"
  else if c = '\n' then "\\n"
  else if c = '\t' then "\\t"
  else if c = '\r' then "\\r"
  else if c.toNat = 8 then "\\b"
  else if c.toNat = 12 then "\\f"
  else if c.toNat < 32 then "\\u" ++ hex4 c.toNat
  else if c.toNat < 127 then String.singleton c
  else if c.toNat < 65536 then "\\u" ++ hex4 c.toNat
  else "\\u" ++ hex4 (55296 + (c.toNat - 65536) / 1024) ++
       "\\u" ++ hex4 (56320 + (c.toNat - 65536) % 1024)

/-- A JSON string literal: quotes around the escaped characters. -/
def pyStr (s : String) : String :=
  "\"" ++ String.join (s.data.map escChar) ++ "\""

/-- Compact `json.dumps` (default separators `", "` and `": "`), with a
structural-recursion fuel bound on nesting depth.  Every document the
adapter builds has depth at most 3, far below the fuel used below. -/
def pyDumpsF : Nat → Json → String
  | _, .str s => pyStr s
  | _, .num n => toString n
  | 0, .arr _ => ""
  | 0, .obj _ => ""
  | fuel+1, .arr xs =>
      "[" ++ String.intercalate ", " (xs.map (pyDumpsF fuel)) ++ "]"
  | fuel+1, .obj kvs =>
      "\x7b" ++
      String.intercalate ", "
        (kvs.map (fun kv => pyStr kv.1 ++ ": " ++ pyDumpsF fuel kv.2)) ++
      "\x7d"

/-- `json.dumps(doc)` with Python's defaults, for documents of nesting
depth below 8 (the adapter's documents have depth at most 3). -/
def pyDumps (j : Json) : String := pyDumpsF 8 j

/-- `n` spaces, for indented output. -/
def sp (n : Nat) : String := String.mk (List.replicate n ' ')

/-- `json.dumps(doc, indent=2)`: item separator `","` followed by a newline
and indentation, key separator `": "`, empty containers kept inline. -/
def pyDumpsIndF : Nat → Nat → Json → String
  | _, _, .str s => pyStr s
  | _, _, .num n => toString n
  | 0, _, .arr _ => ""
  | 0, _, .obj _ => ""
  | _+1, _, .arr [] => "[]"
  | _+1, _, .obj [] => "\x7b\x7d"
  | fuel+1, lvl, .arr xs =>
      "[\n" ++
      String.intercalate ",\n"
        (xs.map (fun x => sp (lvl + 2) ++ pyDumpsIndF fuel (lvl + 2) x)) ++
      "\n" ++ sp lvl ++ "]"
  | fuel+1, lvl, .obj kvs =>
      "\x7b\n" ++
      String.intercalate ",\n"
        (kvs.map (fun kv =>
          sp (lvl + 2) ++ pyStr kv.1 ++ ": " ++
          pyDumpsIndF fuel (lvl + 2) kv.2)) ++
      "\n" ++ sp lvl ++ "\x7d"

/-- `json.dumps(doc, indent=2)` at top level. -/
def pyDumpsIndent2 (j : Json) : String := pyDumpsIndF 8 0 j

/-- One provider web result, as the adapter reads it: `result.title`,
`str(result.url)` (already stringified) and `result.description`. -/
structure WebResult where
  title : String
  url : String
  description : String
deriving DecidableEq

/-- The `web` section of a provider response, holding the result list.
A `None`-valued `results` field behaves like the empty list (both are
falsy in the adapter's truthiness test), so it is modelled as a list. -/
structure WebSection where
  results : List WebResult
deriving DecidableEq

/-- A provider response: `search_results.web` may be absent.  The response
object itself is truthy in Python (no `__bool__` override), so only `web`
and `web.results` decide the adapter's branch. -/
structure SearchResponse where
  web : Option WebSection
deriving DecidableEq

/-- Outcome of a call to the owned client: success, the provider-specific
`BraveSearchAPIError` (carrying `str(e)`), or any other exception. -/
inductive ClientOutcome where
  | success : SearchResponse → ClientOutcome
  | apiError : String → ClientOutcome
  | genericError : String → ClientOutcome
deriving DecidableEq

/-- The keyword arguments `brave_search` passes to `self.brave_client.search`. -/
structure CallArgs where
  q : String
  count : Int
  country : String
  search_lang : String
  result_filter : String
deriving DecidableEq

/-- The owned client's behaviour, as a function of the passed arguments. -/
def SearchClient : Type := CallArgs → ClientOutcome

/-- The adapter object built by `BraveSearchTools.__init__` (the fields the
search operation reads, plus the owned client). -/
structure BraveSearchTools where
  api_key : String
  fixed_max_results : Option Int
  fixed_language : Option String
  brave_client : SearchClient

/-- Python truthiness of an `Optional[str]`: `None` and `""` are falsy. -/
def truthyStr : Option String → Bool
  | some s => s != ""
  | none => false

/-- Python's `a or b` on `Optional[str]` values. -/
def pyOr (a b : Option String) : Option String :=
  if truthyStr a then a else b

/-- The `ValueError` message raised when no API key resolves. -/
def initErrorMsg : String :=
  "BRAVE_API_KEY is required. Please set the BRAVE_API_KEY environment variable."

/-- `BraveSearchTools.__init__`: resolve the key as
`api_key or getenv("BRAVE_API_KEY")`, raise `ValueError` when the result is
falsy (`None` or `""`), otherwise instantiate the owned client from the
resolved key, wait time and retries and build the adapter.  `mkClient`
models the external `BraveSearch` constructor; `env_key` models
`getenv("BRAVE_API_KEY")`. -/
def initTools (api_key : Option String) (env_key : Option String)
    (mkClient : String → Int → Int → SearchClient)
    (fixed_max_results : Option Int) (fixed_language : Option String)
    (wait_time : Int) (retries : Int) : Except String BraveSearchTools :=
  match pyOr api_key env_key with
  | none => Except.error initErrorMsg
  | some k =>
      if k = "" then Except.error initErrorMsg
      else Except.ok ⟨k, fixed_max_results, fixed_language,
                      mkClient k wait_time retries⟩

/-- Lines 75–76 and the call site of `brave_search`: the arguments passed
to the owned client.  `final_max_results` is `self.fixed_max_results` when
that field `is not None`, else the `max_results` argument; likewise for the
language; `country` is passed through; `result_filter` is fixed to `"web"`. -/
def effectiveArgs (fixed_max_results : Option Int) (fixed_language : Option String)
    (query : String) (max_results : Int) (country : String)
    (search_lang : String) : CallArgs :=
  ⟨query,
   match fixed_max_results with
   | some n => n
   | none => max_results,
   country,
   match fixed_language with
   | some l => l
   | none => search_lang,
   "web"⟩

/-- Projection of one provider result into the payload item
`{title, url, description}` (with the URL already stringified). -/
def webResultDoc (r : WebResult) : Json :=
  Json.obj [("title", Json.str r.title), ("url", Json.str r.url),
            ("description", Json.str r.description)]

/-- The web results the response carries: empty when the `web` section is
absent. -/
def webItems (resp : SearchResponse) : List WebResult :=
  match resp.web with
  | some w => w.results
  | none => []

/-- The `filtered_results` dict: initialized with an empty list, the query
and a zero count, then overwritten when
`search_results and search_results.web and search_results.web.results`
is truthy (the response object itself is always truthy). -/
def filteredResults (query : String) (resp : SearchResponse) : Json :=
  match resp.web with
  | none =>
      Json.obj [("web_results", Json.arr []), ("query", Json.str query),
                ("total_results", Json.num 0)]
  | some w =>
      match w.results with
      | [] =>
          Json.obj [("web_results", Json.arr []), ("query", Json.str query),
                    ("total_results", Json.num 0)]
      | rs =>
          Json.obj [("web_results", Json.arr (rs.map webResultDoc)),
                    ("query", Json.str query),
                    ("total_results", Json.num (rs.length : Int))]

/-- The JSON document `brave_search` serializes: the empty-query error
document, the filtered results on success, or one of the two error
documents, matching the source's branches in order. -/
def brave_search_doc (self : BraveSearchTools) (query : String)
    (max_results : Int) (country : String) (search_lang : String) : Json :=
  if query = "" then
    Json.obj [("error", Json.str "Please provide a query to search for")]
  else
    match self.brave_client (effectiveArgs self.fixed_max_results
        self.fixed_language query max_results country search_lang) with
    | ClientOutcome.success resp => filteredResults query resp
    | ClientOutcome.apiError m =>
        Json.obj [("error", Json.str ("Brave Search API error: " ++ m))]
    | ClientOutcome.genericError m =>
        Json.obj [("error", Json.str ("An unexpected error occurred: " ++ m))]

/-- `BraveSearchTools.brave_search`: returns the serialized JSON string.
The success payload uses `json.dumps(..., indent=2)`; the three error
returns use plain `json.dumps(...)`. -/
def brave_search (self : BraveSearchTools) (query : String)
    (max_results : Int) (country : String) (search_lang : String) : String :=
  if query = "" then
    pyDumps (Json.obj [("error", Json.str "Please provide a query to search for")])
  else
    match self.brave_client (effectiveArgs self.fixed_max_results
        self.fixed_language query max_results country search_lang) with
    | ClientOutcome.success resp => pyDumpsIndent2 (filteredResults query resp)
    | ClientOutcome.apiError m =>
        pyDumps (Json.obj [("error", Json.str ("Brave Search API error: " ++ m))])
    | ClientOutcome.genericError m =>
        pyDumps (Json.obj [("error", Json.str ("An unexpected error occurred: " ++ m))])

/-- The error payload shape: exactly one key, `error`, holding a string. -/
def isErrorShape : Json → Bool
  | Json.obj [(k, Json.str _)] => k == "error"
  | _ => false

/-- The success payload shape: exactly the keys `web_results`, `query`,
`total_results` in the order the source builds them. -/
def isSuccessShape : Json → Bool
  | Json.obj [(k1, Json.arr _), (k2, Json.str _), (k3, Json.num _)] =>
      k1 == "web_results" && k2 == "query" && k3 == "total_results"
  | _ => false

/-- A concrete two-result provider response, used as a test vector. -/
def respTwo : SearchResponse :=
  ⟨some ⟨[⟨"T1", "http://a/", "D1"⟩, ⟨"T2", "http://b/", "D2"⟩]⟩⟩

/-- Both branches of `filteredResults` agree with the uniform projection of
`webItems`. -/
theorem filteredResults_eq (query : String) (resp : SearchResponse) :
    filteredResults query resp =
      Json.obj [("web_results", Json.arr ((webItems resp).map webResultDoc)),
                ("query", Json.str query),
                ("total_results", Json.num ((webItems resp).length : Int))] := by
  obtain ⟨web⟩ := resp
  cases web with
  | none => rfl
  | some w =>
      obtain ⟨rs⟩ := w
      cases rs with
      | nil => rfl
      | cons a as => rfl

/-- C1: the count passed to the owned client equals `fixed_max_results`
when that field is set and the `max_results` argument when it is unset; the
language passed equals `fixed_language` when set and the `search_lang`
argument otherwise; the country argument is passed through unchanged; and
for a non-empty query `brave_search` depends on the client only through its
value at exactly these arguments. -/
theorem effective_params_spec (fm : Option Int) (fl : Option String)
    (query : String) (mr : Int) (country search_lang : String) :
    ((∀ n, fm = some n →
        (effectiveArgs fm fl query mr country search_lang).count = n) ∧
     (fm = none →
        (effectiveArgs fm fl query mr country search_lang).count = mr)) ∧
    ((∀ l, fl = some l →
        (effectiveArgs fm fl query mr country search_lang).search_lang = l) ∧
     (fl = none →
        (effectiveArgs fm fl query mr country search_lang).search_lang = search_lang)) ∧
    (effectiveArgs fm fl query mr country search_lang).country = country ∧
    (effectiveArgs fm fl query mr country search_lang).q = query ∧
    (∀ (ak : String) (cl cl' : SearchClient),
      cl (effectiveArgs fm fl query mr country search_lang) =
        cl' (effectiveArgs fm fl query mr country search_lang) →
      brave_search ⟨ak, fm, fl, cl⟩ query mr country search_lang =
        brave_search ⟨ak, fm, fl, cl'⟩ query mr country search_lang) := by
  refine ⟨⟨?_, ?_⟩, ⟨?_, ?_⟩, rfl, rfl, ?_⟩
  · intro n h; subst h; rfl
  · intro h; subst h; rfl
  · intro l h; subst h; rfl
  · intro h; subst h; rfl
  · intro ak cl cl' h
    unfold brave_search
    by_cases hq : query = ""
    · simp [hq]
    · simp only [if_neg hq]
      rw [h]

/-- C1 witness at concrete inputs: a set `fixed_max_results` of 7 wins over
the argument, a set `fixed_language` of `"de"` wins over the argument, and
two clients agreeing at the effective arguments give identical results. -/
theorem effective_params_spec_witness :
    (effectiveArgs (some 7) none "q" 5 "US" "en").count = 7 ∧
    (effectiveArgs none (some "de") "q" 3 "US" "en").search_lang = "de" ∧
    brave_search ⟨"k", none, none, fun _ => ClientOutcome.apiError "x"⟩ "q" 5 "US" "en" =
      brave_search ⟨"k", none, none, fun _ => ClientOutcome.apiError "x"⟩ "q" 5 "US" "en" :=
  ⟨(effective_params_spec (some 7) none "q" 5 "US" "en").1.1 7 rfl,
   (effective_params_spec none (some "de") "q" 3 "US" "en").2.1.1 "de" rfl,
   (effective_params_spec none none "q" 5 "US" "en").2.2.2.2 "k"
     (fun _ => ClientOutcome.apiError "x") (fun _ => ClientOutcome.apiError "x") rfl⟩

/-- C2: an empty query makes `brave_search` return exactly the JSON string
with the error `Please provide a query to search for`, and the result does
not depend on the owned client (it is never invoked). -/
theorem empty_query_short_circuit (ak : String) (fm : Option Int)
    (fl : Option String) (cl cl' : SearchClient) (mr : Int)
    (country search_lang : String) :
    brave_search ⟨ak, fm, fl, cl⟩ "" mr country search_lang =
      "\x7b\"error\": \"Please provide a query to search for\"\x7d" ∧
    brave_search ⟨ak, fm, fl, cl⟩ "" mr country search_lang =
      brave_search ⟨ak, fm, fl, cl'⟩ "" mr country search_lang :=
  ⟨rfl, rfl⟩

/-- C9: an explicitly supplied but empty `api_key` argument behaves exactly
like an absent one — construction falls back to the `BRAVE_API_KEY`
environment value, and in particular succeeds with the environment's key. -/
theorem empty_api_key_falls_back (env : Option String)
    (mkClient : String → Int → Int → SearchClient) (fm : Option Int)
    (fl : Option String) (w r : Int) :
    initTools (some "") env mkClient fm fl w r =
      initTools none env mkClient fm fl w r ∧
    initTools (some "") (some "envkey") mkClient fm fl w r =
      Except.ok ⟨"envkey", fm, fl, mkClient "envkey" w r⟩ :=
  ⟨rfl, rfl⟩

/-- C10: the override test is `is not None`, so falsy-but-set values still
override: `fixed_max_results = 0` forces the count to 0 for every
`max_results` argument, and `fixed_language = ""` passes the empty string
as the search language. -/
theorem falsy_overrides_apply (fm : Option Int) (fl : Option String)
    (query : String) (mr : Int) (country search_lang : String) :
    (effectiveArgs (some 0) fl query mr country search_lang).count = 0 ∧
    (effectiveArgs fm (some "") query mr country search_lang).search_lang = "" :=
  ⟨rfl, rfl⟩

/-- C7: construction resolves the key as the explicit argument `or` the
environment value; when the resolved value is non-empty the adapter is
built with that key and the client instantiated from it, and when neither
yields a non-empty value construction fails with the `ValueError` message
and no adapter (hence no client) is ever created. -/
theorem construction_key_resolution (api_key env : Option String)
    (mkClient : String → Int → Int → SearchClient) (fm : Option Int)
    (fl : Option String) (w r : Int) :
    (∀ k, pyOr api_key env = some k → k ≠ "" →
      initTools api_key env mkClient fm fl w r =
        Except.ok ⟨k, fm, fl, mkClient k w r⟩) ∧
    ((pyOr api_key env = none ∨ pyOr api_key env = some "") →
      initTools api_key env mkClient fm fl w r = Except.error initErrorMsg) := by
  constructor
  · intro k hk hne
    unfold initTools
    rw [hk]
    simp [hne]
  · intro hfail
    unfold initTools
    rcases hfail with h | h <;> simp [h]

/-- C7 witness: with no explicit key and no environment key, construction
fails with the `ValueError` message. -/
theorem construction_key_resolution_witness :
    initTools none none (fun _ _ _ _ => ClientOutcome.genericError "") none none 5 3 =
      Except.error initErrorMsg :=
  (construction_key_resolution none none
    (fun _ _ _ _ => ClientOutcome.genericError "") none none 5 3).2 (Or.inl rfl)

/-- The filtered results always match the success shape. -/
theorem isSuccessShape_filtered (query : String) (resp : SearchResponse) :
    isSuccessShape (filteredResults query resp) = true := by
  rw [filteredResults_eq]; rfl

/-- The filtered results never match the error shape. -/
theorem isErrorShape_filtered (query : String) (resp : SearchResponse) :
    isErrorShape (filteredResults query resp) = false := by
  rw [filteredResults_eq]; rfl

/-- C3: on a successful client response the payload is exactly the
projection of the provider's web results (title, stringified url,
description) in provider order, with the query echoed and `total_results`
the number of web results; an absent web section yields the empty
projection, not an error. -/
theorem success_projection (self : BraveSearchTools) (query : String)
    (mr : Int) (country search_lang : String) (resp : SearchResponse)
    (hq : ¬ query = "")
    (hc : self.brave_client (effectiveArgs self.fixed_max_results
        self.fixed_language query mr country search_lang) =
      ClientOutcome.success resp) :
    brave_search_doc self query mr country search_lang =
      Json.obj [("web_results", Json.arr ((webItems resp).map webResultDoc)),
                ("query", Json.str query),
                ("total_results", Json.num ((webItems resp).length : Int))] ∧
    ((webItems resp).map webResultDoc).length = (webItems resp).length := by
  constructor
  · simp only [brave_search_doc, if_neg hq, hc]
    exact filteredResults_eq query resp
  · simp

/-- C3 witness: a client returning two web results produces the payload
with both projections in order, the echoed query and a count of 2. -/
theorem success_projection_witness :
    brave_search_doc
        ⟨"key", none, none, fun _ => ClientOutcome.success respTwo⟩
        "test" 5 "US" "en" =
      Json.obj
        [("web_results", Json.arr
            [Json.obj [("title", Json.str "T1"), ("url", Json.str "http://a/"),
                       ("description", Json.str "D1")],
             Json.obj [("title", Json.str "T2"), ("url", Json.str "http://b/"),
                       ("description", Json.str "D2")]]),
         ("query", Json.str "test"),
         ("total_results", Json.num 2)] := by
  have h := (success_projection
    ⟨"key", none, none, fun _ => ClientOutcome.success respTwo⟩
    "test" 5 "US" "en" respTwo (by decide) rfl).1
  exact h

/-- C8: on every success path the payload has exactly the keys
`web_results`, `query` and `total_results` in that order, the `query` field
echoes the argument, and `total_results` equals the length of the
`web_results` array. -/
theorem success_invariant (self : BraveSearchTools) (query : String)
    (mr : Int) (country search_lang : String) (resp : SearchResponse)
    (hq : ¬ query = "")
    (hc : self.brave_client (effectiveArgs self.fixed_max_results
        self.fixed_language query mr country search_lang) =
      ClientOutcome.success resp) :
    ∃ items : List Json,
      brave_search_doc self query mr country search_lang =
        Json.obj [("web_results", Json.arr items),
                  ("query", Json.str query),
                  ("total_results", Json.num (items.length : Int))] := by
  refine ⟨(webItems resp).map webResultDoc, ?_⟩
  simp only [brave_search_doc, if_neg hq, hc]
  rw [filteredResults_eq]
  simp

/-- C8 witness: a client returning a response with no web section yields a
payload whose `total_results` equals the length of its (empty) result
array and whose `query` field echoes the argument. -/
theorem success_invariant_witness :
    ∃ items : List Json,
      brave_search_doc
          ⟨"key", some 3, some "fr", fun _ => ClientOutcome.success ⟨none⟩⟩
          "hello" 5 "US" "en" =
        Json.obj [("web_results", Json.arr items),
                  ("query", Json.str "hello"),
                  ("total_results", Json.num (items.length : Int))] :=
  success_invariant ⟨"key", some 3, some "fr", fun _ => ClientOutcome.success ⟨none⟩⟩
    "hello" 5 "US" "en" ⟨none⟩ (by decide) rfl

/-- C4: when the owned client raises the provider-specific error with
message `m`, the result is the serialized JSON object whose single `error`
field is the message prefixed with `Brave Search API error: `. -/
theorem api_error_mapping (self : BraveSearchTools) (query : String)
    (mr : Int) (country search_lang : String) (m : String)
    (hq : ¬ query = "")
    (hc : self.brave_client (effectiveArgs self.fixed_max_results
        self.fixed_language query mr country search_lang) =
      ClientOutcome.apiError m) :
    brave_search self query mr country search_lang =
      pyDumps (Json.obj [("error", Json.str ("Brave Search API error: " ++ m))]) := by
  simp only [brave_search, if_neg hq, hc]

/-- C4 witness: a client raising the provider error with message
`rate limited` makes search return exactly the expected JSON string. -/
theorem api_error_mapping_witness :
    brave_search ⟨"key", none, none, fun _ => ClientOutcome.apiError "rate limited"⟩
        "test" 5 "US" "en" =
      "\x7b\"error\": \"Brave Search API error: rate limited\"\x7d" := by
  have h := api_error_mapping
    ⟨"key", none, none, fun _ => ClientOutcome.apiError "rate limited"⟩
    "test" 5 "US" "en" "rate limited" (by decide) rfl
  exact h

/-- C5: when the owned client raises any error other than the
provider-specific kind, with message `m`, the result is the serialized JSON
object whose single `error` field is the message prefixed with
`An unexpected error occurred: `. -/
theorem generic_error_mapping (self : BraveSearchTools) (query : String)
    (mr : Int) (country search_lang : String) (m : String)
    (hq : ¬ query = "")
    (hc : self.brave_client (effectiveArgs self.fixed_max_results
        self.fixed_language query mr country search_lang) =
      ClientOutcome.genericError m) :
    brave_search self query mr country search_lang =
      pyDumps (Json.obj [("error", Json.str ("An unexpected error occurred: " ++ m))]) := by
  simp only [brave_search, if_neg hq, hc]

/-- C5 witness: a client raising a generic fault with message `timeout`
makes search return exactly the expected JSON string. -/
theorem generic_error_mapping_witness :
    brave_search ⟨"key", none, none, fun _ => ClientOutcome.genericError "timeout"⟩
        "test" 5 "US" "en" =
      "\x7b\"error\": \"An unexpected error occurred: timeout\"\x7d" := by
  have h := generic_error_mapping
    ⟨"key", none, none, fun _ => ClientOutcome.genericError "timeout"⟩
    "test" 5 "US" "en" "timeout" (by decide) rfl
  exact h

/-- C6: for every input and every client behaviour the result is the
serialization of a JSON document that matches exactly one of the two
payload shapes — the success shape or the error shape — never both and
never neither; the model is a total function, so nothing escapes the
operation's boundary. -/
theorem result_shape_exclusive (self : BraveSearchTools) (query : String)
    (mr : Int) (country search_lang : String) :
    ((isSuccessShape (brave_search_doc self query mr country search_lang) = true ∧
      isErrorShape (brave_search_doc self query mr country search_lang) = false) ∨
     (isErrorShape (brave_search_doc self query mr country search_lang) = true ∧
      isSuccessShape (brave_search_doc self query mr country search_lang) = false)) ∧
    brave_search self query mr country search_lang =
      (if isErrorShape (brave_search_doc self query mr country search_lang)
       then pyDumps (brave_search_doc self query mr country search_lang)
       else pyDumpsIndent2 (brave_search_doc self query mr country search_lang)) := by
  by_cases hq : query = ""
  · subst hq
    exact ⟨Or.inr ⟨rfl, rfl⟩, rfl⟩
  · cases hc : self.brave_client (effectiveArgs self.fixed_max_results
        self.fixed_language query mr country search_lang) with
    | success resp =>
        have hd : brave_search_doc self query mr country search_lang =
            filteredResults query resp := by
          simp only [brave_search_doc, if_neg hq, hc]
        have hs : brave_search self query mr country search_lang =
            pyDumpsIndent2 (filteredResults query resp) := by
          simp only [brave_search, if_neg hq, hc]
        rw [hd, hs]
        refine ⟨Or.inl ⟨isSuccessShape_filtered query resp,
          isErrorShape_filtered query resp⟩, ?_⟩
        rw [isErrorShape_filtered]
        simp
    | apiError m =>
        have hd : brave_search_doc self query mr country search_lang =
            Json.obj [("error", Json.str ("Brave Search API error: " ++ m))] := by
          simp only [brave_search_doc, if_neg hq, hc]
        have hs : brave_search self query mr country search_lang =
            pyDumps (Json.obj [("error", Json.str ("Brave Search API error: " ++ m))]) := by
          simp only [brave_search, if_neg hq, hc]
        rw [hd, hs]
        exact ⟨Or.inr ⟨rfl, rfl⟩, rfl⟩
    | genericError m =>
        have hd : brave_search_doc self query mr country search_lang =
            Json.obj [("error", Json.str ("An unexpected error occurred: " ++ m))] := by
          simp only [brave_search_doc, if_neg hq, hc]
        have hs : brave_search self query mr country search_lang =
            pyDumps (Json.obj [("error", Json.str ("An unexpected error occurred: " ++ m))]) := by
          simp only [brave_search, if_neg hq, hc]
        rw [hd, hs]
        exact ⟨Or.inr ⟨rfl, rfl⟩, rfl⟩

end BraveTools
